import Mathlib

/-!
Verification of the process-handle wrapper (`src/winapiwrapper/process.rs`).

The source file is a thin wrapper around Windows process primitives
(`OpenProcess`, `CloseHandle`, `GetProcessId`, `WriteProcessMemory`,
`ReadProcessMemory`, `VirtualProtectEx`) plus thread discovery through a
toolhelp snapshot.  The operating system is embedded as a pure oracle
record `OS`; every wrapper operation returns its result together with the
list of OS primitives it invoked, so "performs no OS call" is a statement
about that trace.  Handles, pids, addresses, sizes, flag bitmasks and
protection values are machine words in the source and are embedded as
`Nat`; byte buffers are `List Nat`.
-/

namespace Jector

/-- Modelled from the spec: the error collaborator (`error.rs` is not under
`src/`) is "a constructible failure value carrying a human-readable
message" (spec section 6). -/
structure Error where
  message : String
deriving DecidableEq, Repr

/-- Modelled from the spec: `Error::new` wraps a descriptive message
identifying which check or OS call failed. -/
def Error.new (s : String) : Error := ⟨s⟩

/-- The spec's error taxonomy (section 7): `NullHandle`, `InvalidArgument`,
`OsCallFailure` are kinds, not concrete types. -/
inductive ErrorKind where
  | NullHandle
  | InvalidArgument
  | OsCallFailure
deriving DecidableEq, Repr

/-- Modelled from the spec: classification of each concrete error message
`process.rs` constructs into the spec's taxonomy (section 7).  The three
argument-precondition messages (null address to write, null address to
read, empty buffer) are `InvalidArgument`; every other message produced by
`process.rs` ("OpenProcess returned NULL", "CloseHandle failed",
"GetProcessId returned NULL", "WriteProcessMemory failed",
"ReadProcessMemory failed", "VirtualProtectEx returned NULL") names the OS
primitive that returned a failure indication, which is exactly the spec's
definition of `OsCallFailure`.  No message constructed in `process.rs`
reports an invalid, unset or already-closed handle, so no message maps to
`NullHandle`. -/
def Error.kind (e : Error) : ErrorKind :=
  if e.message = "Address to write to is null" then ErrorKind.InvalidArgument
  else if e.message = "Address to read from is null" then ErrorKind.InvalidArgument
  else if e.message = "Buffer length is zero" then ErrorKind.InvalidArgument
  else ErrorKind.OsCallFailure

/-- A thread entry of a toolhelp snapshot.  Modelled from the spec
(section 4.4): each record carries at least the thread id and the
owning-process id; the field names are the ones `process.rs` reads. -/
structure ThreadEntry where
  th32ThreadID : Nat
  th32OwnerProcessID : Nat
deriving DecidableEq, Repr

/-- One invocation of an OS primitive, as recorded in an operation's
trace. -/
inductive OsCall where
  | openProcess (access : Nat) (inherit : Bool) (pid : Nat)
  | closeHandle (handle : Nat)
  | getProcessId (handle : Nat)
  | createSnapshot (pid : Nat) (flags : Nat)
  | openThread (tid : Nat) (access : Nat) (inherit : Bool)
  | writeProcessMemory (handle : Nat) (address : Nat) (data : List Nat)
  | readProcessMemory (handle : Nat) (address : Nat) (len : Nat)
  | virtualProtectEx (handle : Nat) (address : Nat) (size : Nat) (protect : Nat)
deriving DecidableEq, Repr

/-- The operating system as a pure oracle.  A handle value of `0` is the
null handle, a pid of `0` is the failure reply of `GetProcessId`.  For
`VirtualProtectEx` the oracle is split into `protectAllowed` (does the OS
grant the change) and `protAt` (the protection in effect on the region at
the moment of the call, i.e. immediately before the change), following the
documented contract of the primitive: on success it stores the previous
protection into its out-parameter. -/
structure OS where
  openProcess : Nat → Bool → Nat → Nat
  closeHandle : Nat → Nat
  getProcessId : Nat → Nat
  threadEntries : Nat → Nat → Option (List ThreadEntry)
  openThread : Nat → Nat → Bool → Nat
  writeOk : Nat → Nat → List Nat → Bool
  writeCount : Nat → Nat → List Nat → Nat
  readOk : Nat → Nat → Nat → Bool
  readCount : Nat → Nat → Nat → Nat
  protectAllowed : Nat → Nat → Nat → Nat → Bool
  protAt : Nat → Nat → Nat

/-- `pub struct Process { handle: HANDLE }` (process.rs line 17). -/
structure Process where
  handle : Nat
deriving DecidableEq, Repr

/-- Modelled from the spec: `Thread` wraps the handle opened for a thread
id (`thread.rs` is not under `src/`; spec sections 3 and 4.5). -/
structure Thread where
  handle : Nat
deriving DecidableEq, Repr

/-- Modelled from the spec: a `Snapshot` yields a finite sequence of thread
entries reflecting the moment it was taken (`snapshot.rs` is not under
`src/`; spec sections 3 and 4.4). -/
structure Snapshot where
  entries : List ThreadEntry
deriving DecidableEq, Repr

/-- Modelled from the spec: the thread filter flag passed to snapshot
creation (`TH32CS_SNAPTHREAD`); its concrete bit value is opaque data. -/
def TH32CS_SNAPTHREAD : Nat := 4

/-- `Process::from_pid` (process.rs lines 24-32): calls `OpenProcess` and
fails when the returned handle is null. -/
def Process.from_pid (os : OS) (pid : Nat) (access : Nat) (inherit : Bool) :
    Except Error Process × List OsCall :=
  let handle := os.openProcess access inherit pid
  (if handle = 0 then Except.error (Error.new "OpenProcess returned NULL")
   else Except.ok { handle := handle },
   [OsCall.openProcess access inherit pid])

/-- `Process::close` (process.rs lines 38-46): calls `CloseHandle` on the
stored handle; fails when the OS reply is `0`.  Takes the process
immutably and updates no state. -/
def Process.close (os : OS) (p : Process) : Except Error Unit × List OsCall :=
  let ret := os.closeHandle p.handle
  (if ret = 0 then Except.error (Error.new "CloseHandle failed") else Except.ok (),
   [OsCall.closeHandle p.handle])

/-- `Process::pid` (process.rs lines 48-56): calls `GetProcessId`; fails
when the reply is `0`. -/
def Process.pid (os : OS) (p : Process) : Except Error Nat × List OsCall :=
  let pid := os.getProcessId p.handle
  (if pid = 0 then Except.error (Error.new "GetProcessId returned NULL")
   else Except.ok pid,
   [OsCall.getProcessId p.handle])

/-- Modelled from the spec: `Snapshot::from_pid` (`snapshot.rs` is not
under `src/`) creates an OS enumeration filtered to the pid and flags and
fails with an OS-call failure when the OS cannot create it (spec section
4.4). -/
def Snapshot.from_pid (os : OS) (pid : Nat) (flags : Nat) :
    Except Error Snapshot × List OsCall :=
  (match os.threadEntries pid flags with
   | some es => Except.ok { entries := es }
   | none => Except.error (Error.new "CreateToolhelp32Snapshot failed"),
   [OsCall.createSnapshot pid flags])

/-- Modelled from the spec: `Snapshot::thread_entries` yields the snapshot's
finite sequence of thread entries (spec section 4.4). -/
def Snapshot.thread_entries (s : Snapshot) : List ThreadEntry := s.entries

/-- Modelled from the spec: `Thread::from_id` (`thread.rs` is not under
`src/`) opens a handle to the thread id and fails with an OS-call failure
when the OS refuses (spec section 4.5). -/
def Thread.from_id (os : OS) (tid : Nat) (access : Nat) (inherit : Bool) :
    Except Error Thread × List OsCall :=
  let handle := os.openThread tid access inherit
  (if handle = 0 then Except.error (Error.new "OpenThread failed")
   else Except.ok { handle := handle },
   [OsCall.openThread tid access inherit])

/-- `Process::snapshot` (process.rs lines 58-60): resolves the pid, then
delegates to `Snapshot::from_pid`. -/
def Process.snapshot (os : OS) (p : Process) (flags : Nat) :
    Except Error Snapshot × List OsCall :=
  match Process.pid os p with
  | (Except.ok pid, t1) =>
      let r := Snapshot.from_pid os pid flags
      (r.1, t1 ++ r.2)
  | (Except.error e, t1) => (Except.error e, t1)

/-- The `for` loop of `Process::main_thread` (process.rs lines 71-79): on
the first entry whose owner pid matches, return the opened thread (an open
failure propagates); when no entry matches, fall through to `Ok(None)`. -/
def Process.main_thread_loop (os : OS) (pd : Nat) (access : Nat) (inherit : Bool) :
    List ThreadEntry → Except Error (Option Thread) × List OsCall
  | [] => (Except.ok none, [])
  | e :: rest =>
      if pd == e.th32OwnerProcessID then
        let r := Thread.from_id os e.th32ThreadID access inherit
        (r.1.map some, r.2)
      else
        Process.main_thread_loop os pd access inherit rest

/-- `Process::main_thread` (process.rs lines 63-82): snapshot with the
thread filter, re-resolve the pid, then scan the snapshot's entries. -/
def Process.main_thread (os : OS) (p : Process) (access : Nat) (inherit : Bool) :
    Except Error (Option Thread) × List OsCall :=
  match Process.snapshot os p TH32CS_SNAPTHREAD with
  | (Except.error e, t1) => (Except.error e, t1)
  | (Except.ok snap, t1) =>
      match Process.pid os p with
      | (Except.error e, t2) => (Except.error e, t1 ++ t2)
      | (Except.ok pd, t2) =>
          let r := Process.main_thread_loop os pd access inherit snap.thread_entries
          (r.1, t1 ++ t2 ++ r.2)

/-- `Process::write_memory` (process.rs lines 84-108): rejects a null
address before any OS call, otherwise issues `WriteProcessMemory` with the
data and its length and returns the reported written count on success. -/
def Process.write_memory (os : OS) (p : Process) (data : List Nat) (address : Nat) :
    Except Error Nat × List OsCall :=
  if address = 0 then
    (Except.error (Error.new "Address to write to is null"), [])
  else
    let ret : Nat := if os.writeOk p.handle address data then 1 else 0
    let num_bytes_written := os.writeCount p.handle address data
    (if ret = 0 then Except.error (Error.new "WriteProcessMemory failed")
     else Except.ok num_bytes_written,
     [OsCall.writeProcessMemory p.handle address data])

/-- `Process::read_memory` (process.rs lines 110-136): rejects a null
address, then an empty buffer, before any OS call; otherwise issues
`ReadProcessMemory` with the buffer length and returns the reported read
count on success. -/
def Process.read_memory (os : OS) (p : Process) (buffer : List Nat) (address : Nat) :
    Except Error Nat × List OsCall :=
  if address = 0 then
    (Except.error (Error.new "Address to read from is null"), [])
  else if buffer.isEmpty then
    (Except.error (Error.new "Buffer length is zero"), [])
  else
    let ret : Nat := if os.readOk p.handle address buffer.length then 1 else 0
    let num_bytes_read := os.readCount p.handle address buffer.length
    (if ret = 0 then Except.error (Error.new "ReadProcessMemory failed")
     else Except.ok num_bytes_read,
     [OsCall.readProcessMemory p.handle address buffer.length])

/-- `Process::virtual_protect` (process.rs lines 138-164): issues
`VirtualProtectEx` with the caller's address, size and protection as given
(no argument validation) and returns the out-parameter `old_protect` when
the OS reply is nonzero. -/
def Process.virtual_protect (os : OS) (p : Process) (address : Nat) (size : Nat)
    (protect : Nat) : Except Error Nat × List OsCall :=
  let ret : Nat := if os.protectAllowed p.handle address size protect then 1 else 0
  let old_protect : Nat :=
    if os.protectAllowed p.handle address size protect then os.protAt p.handle address
    else 0
  (if ret ≠ 0 then Except.ok old_protect
   else Except.error (Error.new "VirtualProtectEx returned NULL"),
   [OsCall.virtualProtectEx p.handle address size protect])

/-- Outcome of `Drop::drop`: either a normal return or an abort of the
environment (Rust `panic` via `unwrap`). -/
inductive DropOutcome where
  | normal
  | abort
deriving DecidableEq, Repr

/-- `impl Drop for Process` (process.rs lines 167-171): `self.close().unwrap()`
aborts when `close` fails and returns normally otherwise. -/
def Process.dropGlue (os : OS) (p : Process) : DropOutcome :=
  match (Process.close os p).1 with
  | Except.ok _ => DropOutcome.normal
  | Except.error _ => DropOutcome.abort

/-- `HandleOwner::handle` for `Process` (process.rs lines 178-180): returns
the stored raw handle unconditionally. -/
def Process.rawHandle (p : Process) : Nat := p.handle

/-- An oracle on which every OS primitive succeeds: handles open as `42`,
pids resolve to `5`, the snapshot holds three entries of which the second
and third belong to pid `5`, threads open as `77`, reads and writes report
the full requested count, and the protection in effect is `2`. -/
def osA : OS where
  openProcess := fun _ _ _ => 42
  closeHandle := fun _ => 1
  getProcessId := fun _ => 5
  threadEntries := fun _ _ => some [⟨11, 9⟩, ⟨12, 5⟩, ⟨13, 5⟩]
  openThread := fun _ _ _ => 77
  writeOk := fun _ _ _ => true
  writeCount := fun _ _ d => d.length
  readOk := fun _ _ _ => true
  readCount := fun _ _ n => n
  protectAllowed := fun _ _ _ _ => true
  protAt := fun _ _ => 2

/-- An oracle on which every OS primitive fails. -/
def osB : OS where
  openProcess := fun _ _ _ => 0
  closeHandle := fun _ => 0
  getProcessId := fun _ => 0
  threadEntries := fun _ _ => none
  openThread := fun _ _ _ => 0
  writeOk := fun _ _ _ => false
  writeCount := fun _ _ _ => 0
  readOk := fun _ _ _ => false
  readCount := fun _ _ _ => 0
  protectAllowed := fun _ _ _ _ => false
  protAt := fun _ _ => 0

/-- The all-success oracle, except that no snapshot entry belongs to the
resolved pid `5`. -/
def osN : OS := { osA with threadEntries := fun _ _ => some [⟨11, 9⟩] }

/-- A concrete process value holding handle `42`. -/
def procA : Process := ⟨42⟩

/-- C2: for every process and every byte buffer, `write_memory` and
`read_memory` at address `0` return the null-address `InvalidArgument`
error with an empty OS-call trace — the underlying OS primitive is never
invoked, under every OS oracle. -/
theorem C2_null_address_no_os_call (os : OS) (p : Process) (data buffer : List Nat) :
    Process.write_memory os p data 0 =
      (Except.error (Error.new "Address to write to is null"), []) ∧
    Process.read_memory os p buffer 0 =
      (Except.error (Error.new "Address to read from is null"), []) ∧
    Error.kind (Error.new "Address to write to is null") = ErrorKind.InvalidArgument ∧
    Error.kind (Error.new "Address to read from is null") = ErrorKind.InvalidArgument :=
  ⟨rfl, rfl, by decide, by decide⟩

/-- C4: for every process, address, size and protection value,
`virtual_protect` returns the protection in effect on the region at the
moment of the call (`protAt`, i.e. immediately before the change) exactly
when the OS grants the change, and otherwise fails with the
`VirtualProtectEx` error, which is of kind `OsCallFailure`. -/
theorem C4_virtual_protect_returns_old_protection (os : OS) (p : Process)
    (address size protect : Nat) :
    (Process.virtual_protect os p address size protect).1 =
      (if os.protectAllowed p.handle address size protect
       then Except.ok (os.protAt p.handle address)
       else Except.error (Error.new "VirtualProtectEx returned NULL")) ∧
    Error.kind (Error.new "VirtualProtectEx returned NULL") = ErrorKind.OsCallFailure := by
  refine ⟨?_, by decide⟩
  by_cases h : os.protectAllowed p.handle address size protect <;>
    simp [Process.virtual_protect, h]

/-- C6: for every pid, access-rights bitmask and inherit flag, `from_pid`
fails with the `OpenProcess` error (of kind `OsCallFailure`) exactly when
the OS returns the null handle, and on success the returned `Process`
holds precisely the non-null handle the OS produced.  The embedding is a
total function, so no input panics or yields an undefined handle. -/
theorem C6_from_pid_os_failure (os : OS) (pid access : Nat) (inherit : Bool) :
    (Process.from_pid os pid access inherit).1 =
      (if os.openProcess access inherit pid = 0
       then Except.error (Error.new "OpenProcess returned NULL")
       else Except.ok { handle := os.openProcess access inherit pid }) ∧
    Error.kind (Error.new "OpenProcess returned NULL") = ErrorKind.OsCallFailure ∧
    (∀ p : Process, (Process.from_pid os pid access inherit).1 = Except.ok p →
      p.handle = os.openProcess access inherit pid ∧ p.handle ≠ 0) := by
  refine ⟨rfl, by decide, ?_⟩
  intro p hp
  by_cases h : os.openProcess access inherit pid = 0 <;>
    simp [Process.from_pid, h] at hp
  rcases hp with rfl
  exact ⟨rfl, h⟩

/-- C6 witness: on the all-success oracle `osA`, opening pid `7` yields a
process whose handle is the OS-produced `42`, which is non-null. -/
theorem C6_from_pid_os_failure_witness :
    (Process.from_pid osA 7 1 false).1 = Except.ok (⟨42⟩ : Process) ∧
    (⟨42⟩ : Process).handle ≠ 0 :=
  ⟨rfl, ((C6_from_pid_os_failure osA 7 1 false).2.2 ⟨42⟩ rfl).2⟩

/-- C10: for every process, size, protection value (including address `0`
and size `0`), `virtual_protect` passes its arguments straight to the OS
protection-change call — the trace is that single `VirtualProtectEx`
invocation at address `0` — and its only possible error is the
`VirtualProtectEx` failure of kind `OsCallFailure`, never an argument
error; by contrast `write_memory` and `read_memory` reject the null
address before any OS call (empty trace) with an `InvalidArgument`
error. -/
theorem C10_virtual_protect_no_argument_validation (os : OS) (p : Process)
    (size protect : Nat) (data buffer : List Nat) :
    (Process.virtual_protect os p 0 size protect).2 =
      [OsCall.virtualProtectEx p.handle 0 size protect] ∧
    (Process.virtual_protect os p 0 size protect).1 =
      (if os.protectAllowed p.handle 0 size protect
       then Except.ok (os.protAt p.handle 0)
       else Except.error (Error.new "VirtualProtectEx returned NULL")) ∧
    Error.kind (Error.new "VirtualProtectEx returned NULL") = ErrorKind.OsCallFailure ∧
    (Process.write_memory os p data 0).2 = [] ∧
    (Process.read_memory os p buffer 0).2 = [] ∧
    Error.kind (Error.new "Address to write to is null") = ErrorKind.InvalidArgument := by
  refine ⟨rfl, ?_, by decide, rfl, rfl, by decide⟩
  by_cases h : os.protectAllowed p.handle 0 size protect <;>
    simp [Process.virtual_protect, h]

/-- C1 counterexample: `Process` tracks no open/closed state — `close`
takes the process immutably and leaves the stored handle unchanged, so a
repeated `close` is the very same computation.  Under the oracle `osA`
(every primitive succeeds), `close` on `procA` succeeds, and afterwards
`pid` on the unchanged value still succeeds instead of failing with
`NullHandle`, while the repeated `close` returns `.ok ()` again instead of
being rejected.  Moreover even when the OS does reject an operation on the
stale handle (oracle `osB`), the error produced is the `GetProcessId`
OS-call failure, never a `NullHandle` error — `process.rs` constructs no
`NullHandle` error at all. -/
theorem C1_counterexample :
    (Process.close osA procA).1 = Except.ok () ∧
    (Process.pid osA procA).1 = Except.ok 5 ∧
    (Process.close osA procA).1 ≠
      Except.error (Error.new "CloseHandle failed") ∧
    (Process.pid osB procA).1 =
      Except.error (Error.new "GetProcessId returned NULL") ∧
    Error.kind (Error.new "GetProcessId returned NULL") = ErrorKind.OsCallFailure :=
  ⟨rfl, rfl, fun h => Except.noConfusion h, rfl, by decide⟩

/-- C1 amended: `Process` is stateless with respect to closing — `close`
does not invalidate the stored handle, its outcome is exactly the OS's
reply to `CloseHandle` on that handle, so a repeat `close` succeeds again
whenever the OS reports success (it is not rejected by the wrapper), and
any failure that `close` or a post-close `pid` does report is an
`OsCallFailure` naming the primitive, never `NullHandle`; no open→closed
transition exists in the wrapper. -/
theorem C1_amended_stateless_close (os : OS) (p : Process) :
    (Process.close os p).1 =
      (if os.closeHandle p.handle = 0
       then Except.error (Error.new "CloseHandle failed")
       else Except.ok ()) ∧
    (os.closeHandle p.handle ≠ 0 →
      (Process.close os p).1 = Except.ok () ∧ (Process.close os p).1 = Except.ok ()) ∧
    (∀ e, (Process.close os p).1 = Except.error e →
      Error.kind e = ErrorKind.OsCallFailure) ∧
    (∀ e, (Process.pid os p).1 = Except.error e →
      Error.kind e = ErrorKind.OsCallFailure) := by
  refine ⟨rfl, ?_, ?_, ?_⟩
  · intro h
    constructor <;> simp [Process.close, h]
  · intro e he
    by_cases h : os.closeHandle p.handle = 0 <;> simp [Process.close, h] at he
    rcases he with rfl
    decide
  · intro e he
    by_cases h : os.getProcessId p.handle = 0 <;> simp [Process.pid, h] at he
    rcases he with rfl
    decide

/-- C1 amended witness: on `osA` the close (and its repeat) succeed; on
`osB` the close fails with an error of kind `OsCallFailure`. -/
theorem C1_amended_stateless_close_witness :
    ((Process.close osA procA).1 = Except.ok () ∧
      (Process.close osA procA).1 = Except.ok ()) ∧
    Error.kind (Error.new "CloseHandle failed") = ErrorKind.OsCallFailure :=
  ⟨(C1_amended_stateless_close osA procA).2.1 (by decide),
   (C1_amended_stateless_close osB procA).2.2.1 (Error.new "CloseHandle failed") rfl⟩

/-- C5: the implicit release at scope end (`Drop for Process`, which runs
`close().unwrap()`) aborts the environment exactly when the OS close call
fails, and returns normally otherwise; recoverable OS failures from the
other operations are instead surfaced to the caller as typed `Error`
results (here: any error `write_memory` returns is a classified
`InvalidArgument` or `OsCallFailure` value, never an abort). -/
theorem C5_drop_aborts_on_failed_release (os : OS) (p : Process)
    (data : List Nat) (address : Nat) :
    Process.dropGlue os p =
      (if os.closeHandle p.handle = 0 then DropOutcome.abort else DropOutcome.normal) ∧
    (∀ e, (Process.write_memory os p data address).1 = Except.error e →
      Error.kind e = ErrorKind.InvalidArgument ∨ Error.kind e = ErrorKind.OsCallFailure) := by
  constructor
  · by_cases h : os.closeHandle p.handle = 0 <;>
      simp [Process.dropGlue, Process.close, h]
  · intro e he
    by_cases ha : address = 0
    · subst ha
      simp [Process.write_memory] at he
      rcases he with rfl
      left; decide
    · by_cases hw : os.writeOk p.handle address data <;>
        simp [Process.write_memory, ha, hw] at he
      rcases he with rfl
      right; decide

/-- C5 witness: on the all-failure oracle `osB` the drop glue aborts, and
the error `write_memory` reports for a failed OS write is a typed
`OsCallFailure` (or argument) result. -/
theorem C5_drop_aborts_on_failed_release_witness :
    Process.dropGlue osB procA = DropOutcome.abort ∧
    (Error.kind (Error.new "WriteProcessMemory failed") = ErrorKind.InvalidArgument ∨
      Error.kind (Error.new "WriteProcessMemory failed") = ErrorKind.OsCallFailure) :=
  ⟨((C5_drop_aborts_on_failed_release osB procA [7] 8).1).trans (by decide),
   (C5_drop_aborts_on_failed_release osB procA [7] 8).2
     (Error.new "WriteProcessMemory failed") rfl⟩

/-- C7: for every process and non-null address, `read_memory` with an
empty buffer fails with the `InvalidArgument` buffer-length error; with a
non-empty buffer it asks the OS for exactly the buffer's length and
returns the count the OS reports, which (under the OS contract that at
most the requested number of bytes is read) never exceeds the buffer
length. -/
theorem C7_read_memory_buffer_length (os : OS) (p : Process) (buffer : List Nat)
    (address : Nat) (ha : address ≠ 0)
    (hos : os.readCount p.handle address buffer.length ≤ buffer.length) :
    (buffer = [] →
      (Process.read_memory os p buffer address).1 =
        Except.error (Error.new "Buffer length is zero")) ∧
    (buffer ≠ [] →
      (Process.read_memory os p buffer address).1 =
        (if os.readOk p.handle address buffer.length
         then Except.ok (os.readCount p.handle address buffer.length)
         else Except.error (Error.new "ReadProcessMemory failed"))) ∧
    (∀ n, (Process.read_memory os p buffer address).1 = Except.ok n →
      n ≤ buffer.length) ∧
    Error.kind (Error.new "Buffer length is zero") = ErrorKind.InvalidArgument := by
  refine ⟨?_, ?_, ?_, by decide⟩
  · intro hb
    subst hb
    simp [Process.read_memory, ha]
  · intro hb
    by_cases hr : os.readOk p.handle address buffer.length <;>
      simp [Process.read_memory, ha, hb, hr, List.isEmpty_iff]
  · intro n hn
    by_cases hb : buffer = []
    · subst hb
      simp [Process.read_memory, ha] at hn
    · by_cases hr : os.readOk p.handle address buffer.length <;>
        simp [Process.read_memory, ha, hb, hr, List.isEmpty_iff] at hn
      rcases hn with rfl
      exact hos

/-- C7 witness: reading a three-byte buffer at address `8` on the
all-success oracle returns `.ok 3`, and `3 ≤ 3`; the empty buffer at the
same address yields the buffer-length `InvalidArgument` error. -/
theorem C7_read_memory_buffer_length_witness :
    (Process.read_memory osA procA [1, 2, 3] 8).1 = Except.ok 3 ∧
    (Process.read_memory osA procA [] 8).1 =
      Except.error (Error.new "Buffer length is zero") := by
  have h3 := C7_read_memory_buffer_length osA procA [1, 2, 3] 8 (by decide) (by decide)
  have h0 := C7_read_memory_buffer_length osA procA [] 8 (by decide) (by decide)
  exact ⟨(h3.2.1 (by decide)).trans rfl, h0.1 rfl⟩

/-- C8: `pid` is deterministic in the stored handle and the OS state — two
`Process` values holding the same handle (in particular the same unchanged
`Process` queried twice against the same OS state) receive identical
results, trace included; additionally on a process whose handle the OS
resolves, both calls return the same `.ok` pid. -/
theorem C8_pid_deterministic (os : OS) (p q : Process) (hpq : p.handle = q.handle) :
    Process.pid os p = Process.pid os q ∧
    (∀ n, (Process.pid os p).1 = Except.ok n → (Process.pid os q).1 = Except.ok n) := by
  constructor
  · simp [Process.pid, hpq]
  · intro n hn
    simpa [Process.pid, hpq] using hn

/-- C8 witness: two process values holding handle `42` receive the same
answer from `pid` on `osA`, namely `.ok 5` both times. -/
theorem C8_pid_deterministic_witness :
    Process.pid osA (⟨42⟩ : Process) = Process.pid osA procA ∧
    (Process.pid osA procA).1 = Except.ok 5 :=
  ⟨(C8_pid_deterministic osA ⟨42⟩ procA rfl).1,
   (C8_pid_deterministic osA ⟨42⟩ procA rfl).2 5 rfl⟩

/-- C9: `write_memory` performs no length validation — for every non-null
address, an empty data slice is not rejected: the OS write primitive is
invoked with the empty (length-`0`) data, and any error returned comes
from the OS call (`OsCallFailure`), never `InvalidArgument`; by contrast
`read_memory` at the same address rejects the empty buffer with an
`InvalidArgument` error before any OS call (empty trace). -/
theorem C9_write_memory_accepts_empty_data (os : OS) (p : Process) (address : Nat)
    (ha : address ≠ 0) :
    (Process.write_memory os p [] address).2 =
      [OsCall.writeProcessMemory p.handle address []] ∧
    (∀ e, (Process.write_memory os p [] address).1 = Except.error e →
      Error.kind e = ErrorKind.OsCallFailure) ∧
    Process.read_memory os p [] address =
      (Except.error (Error.new "Buffer length is zero"), []) ∧
    Error.kind (Error.new "Buffer length is zero") = ErrorKind.InvalidArgument := by
  refine ⟨by simp [Process.write_memory, ha], ?_, by simp [Process.read_memory, ha], by decide⟩
  intro e he
  by_cases hw : os.writeOk p.handle address [] <;>
    simp [Process.write_memory, ha, hw] at he
  rcases he with rfl
  decide

/-- C9 witness: at address `8` on the all-failure oracle, writing the
empty slice issues the OS write call with length-`0` data and the reported
error is the `WriteProcessMemory` OS-call failure. -/
theorem C9_write_memory_accepts_empty_data_witness :
    (Process.write_memory osB procA [] 8).2 =
      [OsCall.writeProcessMemory 42 8 []] ∧
    Error.kind (Error.new "WriteProcessMemory failed") = ErrorKind.OsCallFailure :=
  ⟨(C9_write_memory_accepts_empty_data osB procA 8 (by decide)).1,
   (C9_write_memory_accepts_empty_data osB procA 8 (by decide)).2.1
     (Error.new "WriteProcessMemory failed") rfl⟩

/-- The scan of `main_thread` agrees with `List.find?` on the owner-pid
predicate: when no entry matches it yields `Ok(None)` with no OS call, and
when a first matching entry exists it yields exactly the result (and
trace) of opening that entry's thread id. -/
theorem main_thread_loop_spec (os : OS) (pd access : Nat) (inherit : Bool) :
    ∀ es : List ThreadEntry,
      (es.find? (fun e => pd == e.th32OwnerProcessID) = none →
        Process.main_thread_loop os pd access inherit es = (Except.ok none, [])) ∧
      (∀ e, es.find? (fun e => pd == e.th32OwnerProcessID) = some e →
        Process.main_thread_loop os pd access inherit es =
          ((Thread.from_id os e.th32ThreadID access inherit).1.map some,
           (Thread.from_id os e.th32ThreadID access inherit).2)) := by
  intro es
  induction es with
  | nil => exact ⟨fun _ => rfl, fun e he => by simp at he⟩
  | cons a rest ih =>
      by_cases h : (pd == a.th32OwnerProcessID) = true
      · refine ⟨fun hn => ?_, fun e he => ?_⟩
        · simp [List.find?_cons, h] at hn
        · simp [List.find?_cons, h] at he
          rcases he with rfl
          simp [Process.main_thread_loop, h, Except.map]
      · refine ⟨fun hn => ?_, fun e he => ?_⟩
        · simp only [List.find?_cons, h, if_neg, cond_false] at hn
          simpa [Process.main_thread_loop, h] using ih.1 hn
        · simp only [List.find?_cons, h, if_neg, cond_false] at he
          simpa [Process.main_thread_loop, h] using ih.2 e he

/-- When the OS resolves the pid and produces the snapshot's entry list,
`main_thread` reduces to the scan of that list. -/
theorem main_thread_eq_loop (os : OS) (p : Process) (access : Nat) (inherit : Bool)
    (es : List ThreadEntry) (pd : Nat)
    (hpid : os.getProcessId p.handle = pd) (hpd : pd ≠ 0)
    (hsnap : os.threadEntries pd TH32CS_SNAPTHREAD = some es) :
    (Process.main_thread os p access inherit).1 =
      (Process.main_thread_loop os pd access inherit es).1 := by
  simp [Process.main_thread, Process.snapshot, Process.pid, Snapshot.from_pid,
        Snapshot.thread_entries, hpid, hpd, hsnap]

/-- C3: `main_thread` snapshots with the thread filter and scans the
entries for the first one whose owning-process id equals this process's
pid: when no entry matches (e.g. the process has zero threads in the
snapshot) it returns `Ok(None)` — none, not an error — and when a first
matching entry exists and the OS opens its thread id, it returns that
entry opened as a `Thread` with the requested access rights and inherit
flag. -/
theorem C3_main_thread_first_match (os : OS) (p : Process) (access : Nat) (inherit : Bool)
    (es : List ThreadEntry) (pd : Nat)
    (hpid : os.getProcessId p.handle = pd) (hpd : pd ≠ 0)
    (hsnap : os.threadEntries pd TH32CS_SNAPTHREAD = some es) :
    (es.find? (fun e => pd == e.th32OwnerProcessID) = none →
      (Process.main_thread os p access inherit).1 = Except.ok none) ∧
    (∀ e, es.find? (fun e => pd == e.th32OwnerProcessID) = some e →
      os.openThread e.th32ThreadID access inherit ≠ 0 →
      (Process.main_thread os p access inherit).1 =
        Except.ok (some { handle := os.openThread e.th32ThreadID access inherit })) := by
  constructor
  · intro hn
    rw [main_thread_eq_loop os p access inherit es pd hpid hpd hsnap,
        (main_thread_loop_spec os pd access inherit es).1 hn]
  · intro e he hopen
    rw [main_thread_eq_loop os p access inherit es pd hpid hpd hsnap,
        (main_thread_loop_spec os pd access inherit es).2 e he]
    simp [Thread.from_id, hopen, Except.map]

/-- C3 witness: on `osN` (no snapshot entry owned by the resolved pid `5`)
`main_thread` returns `Ok(None)`; on `osA` the first of the two matching
entries, thread id `12`, is opened, yielding the thread handle `77`. -/
theorem C3_main_thread_first_match_witness :
    (Process.main_thread osN procA 3 false).1 = Except.ok none ∧
    (Process.main_thread osA procA 3 false).1 = Except.ok (some (⟨77⟩ : Thread)) :=
  ⟨(C3_main_thread_first_match osN procA 3 false [⟨11, 9⟩] 5 rfl (by decide) rfl).1
     (by decide),
   (C3_main_thread_first_match osA procA 3 false [⟨11, 9⟩, ⟨12, 5⟩, ⟨13, 5⟩] 5 rfl
     (by decide) rfl).2 ⟨12, 5⟩ (by decide) (by decide)⟩

end Jector
